import Mathlib

/-!
Verification of the cascading dependent-selection and assignment-replacement
model of the opmate-ui admin dashboard.

Each management page of the dashboard is a thin presentation layer over a
remote REST API.  The recurring design logic (dependent selector chains,
duplicate guards, assignment replacement, and the remote data gateway) is
embedded here as executable Lean definitions translated from the Python
source files, and the specified properties are proved about them.
-/

/- ## Lexicographic string order, as used by Python's list.sort on strings -/

def strLeChars : List Char → List Char → Bool
  | [], _ => true
  | _ :: _, [] => false
  | a :: as, b :: bs => if a = b then strLeChars as bs else decide (a < b)

def pyStrLe (a b : String) : Prop := strLeChars a.data b.data = true

instance : DecidableRel pyStrLe := fun a b => by unfold pyStrLe; infer_instance

theorem strLeChars_total : ∀ as bs, strLeChars as bs = true ∨ strLeChars bs as = true := by
  intro as
  induction as with
  | nil => intro bs; left; rfl
  | cons a as ih =>
    intro bs
    cases bs with
    | nil => right; rfl
    | cons b bs =>
      by_cases hab : a = b
      · subst hab
        rcases ih bs with h | h
        · left; simpa [strLeChars] using h
        · right; simpa [strLeChars] using h
      · rcases lt_or_gt_of_ne hab with h | h
        · left; simp [strLeChars, hab, h]
        · right; simp [strLeChars, Ne.symm hab]; exact h

theorem strLeChars_trans :
    ∀ as bs cs, strLeChars as bs = true → strLeChars bs cs = true → strLeChars as cs = true := by
  intro as
  induction as with
  | nil => intro bs cs _ _; rfl
  | cons a as ih =>
    intro bs cs h1 h2
    cases bs with
    | nil => simp [strLeChars] at h1
    | cons b bs =>
      cases cs with
      | nil => simp [strLeChars] at h2
      | cons c cs =>
        by_cases hab : a = b <;> by_cases hbc : b = c
        · subst hab; subst hbc
          simp only [strLeChars, if_pos rfl] at h1 h2 ⊢
          exact ih bs cs h1 h2
        · subst hab
          simp only [strLeChars, if_pos rfl, if_neg hbc, decide_eq_true_eq] at h2 ⊢
          exact h2
        · subst hbc
          simp only [strLeChars, if_neg hab, decide_eq_true_eq] at h1 ⊢
          exact h1
        · simp only [strLeChars, if_neg hab, if_neg hbc, decide_eq_true_eq] at h1 h2
          have hac : a < c := lt_trans h1 h2
          simp only [strLeChars, if_neg (ne_of_lt hac), decide_eq_true_eq]
          exact hac

instance : IsTotal String pyStrLe := ⟨fun a b => strLeChars_total a.data b.data⟩

instance : IsTrans String pyStrLe := ⟨fun a b c => strLeChars_trans a.data b.data c.data⟩

/- ## Data model

Entity records as they appear in the JSON lists fetched from the backend
(`/gurukul`, `/gurukul-offerings`, `/milestones`, `/topics`, `/subtopics`,
`/subjects`).  The Python field `class` of a milestone is called `mclass`
here because `class` is a Lean keyword. -/

structure Gurukul where
  gid : Nat
  gname : String
deriving DecidableEq, Repr

structure Offering where
  oid : Nat
  gid : Nat
  gtype : String
deriving DecidableEq, Repr

structure Milestone where
  mid : Nat
  oid : Nat
  level : String
  mclass : Nat
deriving DecidableEq, Repr

structure Topic where
  tid : Nat
  subid : Nat
  tname : String
deriving DecidableEq, Repr

structure Subtopic where
  subtid : Nat
  topic_id : Nat
  subtopic_name : String
deriving DecidableEq, Repr

/- ## C1: dependent selector chain on u_students_manage.py (lines 208-246)

When the Gurukul selectbox holds the sentinel "None (Unassign Gurukul)", the
Offering and Milestone selectboxes are not rendered at all, so their candidate
sets are empty.  Otherwise the offering options are the offerings whose `gid`
equals the selected gurukul id, and the milestone options are the milestones
whose `oid` equals the selected offering id. -/

def filtered_offerings_for_selected_gurukul
    (allOfferings : List Offering) (selectedGurukulId : Option Nat) : List Offering :=
  match selectedGurukulId with
  | none => []
  | some gid => allOfferings.filter (fun o => o.gid = gid)

def milestone_candidate_set
    (allMilestones : List Milestone)
    (selectedGurukulId selectedOfferingId : Option Nat) : List Milestone :=
  match selectedGurukulId with
  | none => []
  | some _ =>
    match selectedOfferingId with
    | none => []
    | some oid => allMilestones.filter (fun m => m.oid = oid)

/-- The function `fetch_milestones_by_gurukul` of DirectStudent_manage.py (lines 80-88):
a `None` gurukul id short-circuits to the empty list without any API call;
otherwise the backend list for that gurukul is returned (the transport is
abstracted as a function from gurukul id to the fetched list). -/
def fetch_milestones_by_gurukul
    (backend : Nat → List Milestone) (gid : Option Nat) : List Milestone :=
  match gid with
  | none => []
  | some g => backend g

/-- C1: for the 3-level chain Gurukul → Offering → Milestone, the candidate
set at the Milestone level is exactly the set of milestones whose parent-link
field `oid` equals the selected offering id, the offering candidates are
exactly the offerings whose `gid` equals the selected gurukul id, and when the
gurukul selection is the "none selected" sentinel every deeper candidate set
is empty (including the by-gurukul milestone fetch of the direct page). -/
theorem dependent_selector_chain_exactness
    (allOfferings : List Offering) (allMilestones : List Milestone) :
    (∀ gid o, o ∈ filtered_offerings_for_selected_gurukul allOfferings (some gid) ↔
        (o ∈ allOfferings ∧ o.gid = gid)) ∧
    (∀ gid oid m,
        m ∈ milestone_candidate_set allMilestones (some gid) (some oid) ↔
        (m ∈ allMilestones ∧ m.oid = oid)) ∧
    filtered_offerings_for_selected_gurukul allOfferings none = [] ∧
    (∀ selOffering, milestone_candidate_set allMilestones none selOffering = []) ∧
    (∀ gid, milestone_candidate_set allMilestones (some gid) none = []) ∧
    (∀ backend, fetch_milestones_by_gurukul backend none = []) := by
  refine ⟨?_, ?_, rfl, fun _ => rfl, fun _ => rfl, fun _ => rfl⟩
  · intro gid o
    simp [filtered_offerings_for_selected_gurukul, List.mem_filter]
  · intro gid oid m
    simp [milestone_candidate_set, List.mem_filter]

/- ## C3: milestone level gating on milestones_manage.py (lines 11-16, 161-170) -/

/-- The fixed G-type → allowed levels table (`LEVEL_MAPPING`), with Python's
`dict.get(gtype, [])` default for unknown keys. -/
def LEVEL_MAPPING (gtype : String) : List String :=
  if gtype = "G1" then ["L1", "L2", "L3", "L4"]
  else if gtype = "G2" then ["L5", "L6", "L7", "L8"]
  else if gtype = "G3" then ["L9", "L10", "L11", "L12"]
  else if gtype = "G4" then ["L13", "L14", "L15", "L16"]
  else []

/-- Levels already consumed under an offering: the `level` components of the
`milestone_oid_level_map` keys whose `oid` component is the selected one. -/
def existing_levels_for_oid (allMilestones : List Milestone) (oid : Nat) : List String :=
  (allMilestones.filter (fun m => m.oid = oid)).map (fun m => m.level)

/-- The Level dropdown contents for the milestone create form: the levels of
the selected offering's gtype that are not already consumed under that `oid`,
sorted (Python `list.sort()` on strings is lexicographic). -/
def available_levels_for_creation
    (allMilestones : List Milestone) (gtype : String) (oid : Nat) : List String :=
  List.insertionSort pyStrLe
    ((LEVEL_MAPPING gtype).filter
      (fun lvl => decide (lvl ∉ existing_levels_for_oid allMilestones oid)))

/-- C3: for every selected parent offering with gtype `G`, the Level dropdown
option set equals exactly the fixed table entry for `G` minus the levels
already consumed by existing milestones under the same `oid`, in sorted
order; and the fixed table is G1:L1-L4, G2:L5-L8, G3:L9-L12, G4:L13-L16. -/
theorem milestone_level_gating
    (allMilestones : List Milestone) (gtype : String) (oid : Nat) :
    (∀ lvl, lvl ∈ available_levels_for_creation allMilestones gtype oid ↔
        (lvl ∈ LEVEL_MAPPING gtype ∧
          ¬ ∃ m ∈ allMilestones, m.oid = oid ∧ m.level = lvl)) ∧
    List.Sorted pyStrLe (available_levels_for_creation allMilestones gtype oid) ∧
    LEVEL_MAPPING "G1" = ["L1", "L2", "L3", "L4"] ∧
    LEVEL_MAPPING "G2" = ["L5", "L6", "L7", "L8"] ∧
    LEVEL_MAPPING "G3" = ["L9", "L10", "L11", "L12"] ∧
    LEVEL_MAPPING "G4" = ["L13", "L14", "L15", "L16"] := by
  refine ⟨?_, List.sorted_insertionSort pyStrLe _, by decide, by decide, by decide, by decide⟩
  intro lvl
  simp only [available_levels_for_creation, List.mem_insertionSort, List.mem_filter,
    decide_eq_true_eq, existing_levels_for_oid, List.mem_map, List.mem_filter]
  constructor
  · rintro ⟨hmem, hnot⟩
    refine ⟨hmem, ?_⟩
    rintro ⟨m, hm, hoid, hlvl⟩
    exact hnot ⟨m, ⟨hm, by simp [hoid]⟩, hlvl⟩
  · rintro ⟨hmem, hnot⟩
    refine ⟨hmem, ?_⟩
    rintro ⟨m, ⟨hm, hoid⟩, hlvl⟩
    exact hnot ⟨m, hm, by simpa using hoid, hlvl⟩

/- ## C2: stale-selection reset on DirectStudent_manage.py
   (`on_direct_add_gurukul_change`, lines 135-142, and the re-render logic of
   `show_student_crud_direct`, lines 220-242) -/

def SELECT_MILESTONE_SENTINEL : String := "-- Select Milestone --"

/-- The display label built for a milestone in the add-student form:
`f"Level {m['level']} (Class: {m['class']}, ID: {m['mid']})"`. -/
def milestoneDisplay (m : Milestone) : String :=
  "Level " ++ m.level ++ " (Class: " ++ toString m.mclass ++ ", ID: " ++ toString m.mid ++ ")"

/-- Python dict built from a list of key/value pairs keeps the LAST binding of
a duplicated key; `dict.get` returns `None` for a missing key. -/
def dictLookupLast {α : Type} (pairs : List (String × α)) (k : String) : Option α :=
  (pairs.reverse.find? (fun p => p.fst = k)).map (fun p => p.snd)

/-- Python `dict.get` on a `String → Option Nat` dict: a missing key and a key bound
to `None` both yield `None`. -/
def dictGetOptNat (pairs : List (String × Option Nat)) (k : String) : Option Nat :=
  match dictLookupLast pairs k with
  | none => none
  | some v => v

/-- The map `milestone_options_filtered`: the sentinel mapped to `None`, then one
entry per milestone of the currently selected gurukul. -/
def milestone_options_filtered (ms : List Milestone) : List (String × Option Nat) :=
  (SELECT_MILESTONE_SENTINEL, none) :: ms.map (fun m => (milestoneDisplay m, some m.mid))

def milestone_names_filtered (ms : List Milestone) : List String :=
  (milestone_options_filtered ms).map (fun p => p.fst)

/-- The session-state slice touched by the add-student form. -/
structure AddStudentSelection where
  gurukulName : String
  gurukulId : Option Nat
  milestoneName : String
  milestoneId : Option Nat
deriving DecidableEq, Repr

/-- The callback `on_direct_add_gurukul_change`: recompute the gurukul id from the fresh
gurukul list and unconditionally reset the milestone selection to the
sentinel / `None`. -/
def on_direct_add_gurukul_change
    (allGurukuls : List Gurukul) (s : AddStudentSelection) : AddStudentSelection :=
  { s with
    gurukulId := dictLookupLast (allGurukuls.map (fun g => (g.gname, g.gid))) s.gurukulName
    milestoneName := SELECT_MILESTONE_SENTINEL
    milestoneId := none }

/-- Lines 227-232: if the previously selected milestone name is absent from
the freshly recomputed option names, the selection falls back to the
sentinel (at index 0). -/
def refreshed_milestone_name (ms : List Milestone) (prev : String) : String :=
  if prev ∈ milestone_names_filtered ms then prev else SELECT_MILESTONE_SENTINEL

/-- Line 242: the milestone id is re-derived from the fresh options map at
the refreshed name, never carried over from stale state. -/
def refreshed_milestone_id (ms : List Milestone) (prev : String) : Option Nat :=
  dictGetOptNat (milestone_options_filtered ms) (refreshed_milestone_name ms prev)

theorem milestoneDisplay_ne_sentinel (m : Milestone) :
    milestoneDisplay m ≠ SELECT_MILESTONE_SENTINEL := by
  intro h
  have h1 : (milestoneDisplay m).data.head? = some 'L' := by
    have hdat : (milestoneDisplay m).data =
        "Level ".data ++ (m.level ++ " (Class: " ++ toString m.mclass ++ ", ID: " ++
          toString m.mid ++ ")").data := by
      simp [milestoneDisplay, String.data_append]
    rw [hdat]
    rfl
  rw [h] at h1
  exact absurd h1 (by decide)

theorem dictGet_sentinel_none (ms : List Milestone) :
    dictGetOptNat (milestone_options_filtered ms) SELECT_MILESTONE_SENTINEL = none := by
  unfold dictGetOptNat dictLookupLast milestone_options_filtered
  rw [List.reverse_cons]
  have hnone : ((ms.map (fun m => (milestoneDisplay m, some m.mid))).reverse.find?
      (fun p => p.fst = SELECT_MILESTONE_SENTINEL)) = none := by
    rw [List.find?_eq_none]
    intro p hp
    rw [List.mem_reverse, List.mem_map] at hp
    obtain ⟨m, _, rfl⟩ := hp
    simpa using milestoneDisplay_ne_sentinel m
  rw [List.find?_append, hnone]
  rfl

/-- C2: whenever an upstream (gurukul) selection change leaves the previously
selected milestone display absent from the freshly recomputed candidate set,
the downstream milestone selection is reset to the "none selected" sentinel
and its id to `None`; and the gurukul-change callback itself resets the
milestone selection unconditionally.  A stale id is never retained. -/
theorem stale_selection_reset
    (allGurukuls : List Gurukul) (s : AddStudentSelection)
    (ms : List Milestone) (prev : String)
    (hstale : prev ∉ ms.map milestoneDisplay) :
    ((on_direct_add_gurukul_change allGurukuls s).milestoneName = SELECT_MILESTONE_SENTINEL ∧
     (on_direct_add_gurukul_change allGurukuls s).milestoneId = none) ∧
    refreshed_milestone_name ms prev = SELECT_MILESTONE_SENTINEL ∧
    refreshed_milestone_id ms prev = none := by
  have hname : refreshed_milestone_name ms prev = SELECT_MILESTONE_SENTINEL := by
    unfold refreshed_milestone_name
    by_cases hmem : prev ∈ milestone_names_filtered ms
    · rw [if_pos hmem]
      unfold milestone_names_filtered milestone_options_filtered at hmem
      simp only [List.map_cons, List.map_map, List.mem_cons] at hmem
      rcases hmem with h | h
      · exact h
      · exfalso
        apply hstale
        simpa [Function.comp] using h
    · rw [if_neg hmem]
  refine ⟨⟨rfl, rfl⟩, hname, ?_⟩
  unfold refreshed_milestone_id
  rw [hname]
  exact dictGet_sentinel_none ms

/-- Witness for C2 at a concrete input: a previously selected milestone label
that no longer occurs among the options for the new gurukul is reset. -/
theorem stale_selection_reset_witness :
    "Level L9 (Class: 1, ID: 99)" ∉ [Milestone.mk 5 2 "L1" 1].map milestoneDisplay ∧
    (refreshed_milestone_name [Milestone.mk 5 2 "L1" 1] "Level L9 (Class: 1, ID: 99)" =
        SELECT_MILESTONE_SENTINEL ∧
      refreshed_milestone_id [Milestone.mk 5 2 "L1" 1] "Level L9 (Class: 1, ID: 99)" = none) :=
  ⟨by decide,
    ⟨(stale_selection_reset [] ⟨"g", none, "x", none⟩ [Milestone.mk 5 2 "L1" 1]
        "Level L9 (Class: 1, ID: 99)" (by decide)).2.1,
     (stale_selection_reset [] ⟨"g", none, "x", none⟩ [Milestone.mk 5 2 "L1" 1]
        "Level L9 (Class: 1, ID: 99)" (by decide)).2.2⟩⟩

/- ## C6: the client-side duplicate guards
   (topics_manage.py lines 134-147, subtopics_manage.py lines 283-309) -/

/-- The sibling name set under one parent subject
(`topic_subid_map` of topics_manage.py, restricted to one `subid`). -/
def topic_subid_map (allTopics : List Topic) (subid : Nat) : List String :=
  (allTopics.filter (fun t => t.subid = subid)).map (fun t => t.tname)

/-- The create-path duplicate check of topics_manage.py (lines 137-138):
the new value is allowed iff it is absent from the sibling value set. -/
def createDuplicateCheckAllows (existingSiblingNames : List String) (newName : String) : Bool :=
  !(existingSiblingNames.contains newName)

/-- The rename-path duplicate check of subtopics_manage.py (lines 285-292):
the entity itself is excluded from the sibling set by id, and renaming to the
unchanged value is always allowed (`updated != initial` short-circuit). -/
def updateSubtopicGuardAllows
    (siblings : List Subtopic) (selfId : Nat) (initialName newName : String) : Bool :=
  let existing := (siblings.filter (fun s => s.subtid ≠ selfId)).map (fun s => s.subtopic_name)
  !((newName != initialName) && existing.contains newName)

/-- C6: the duplicate-guard truth table.  `check("L1", {"L1","L2"})` is false;
`check("L1", {"L1"}, excludeSelf="L1")` is true (renaming an entity to its own
unchanged value is allowed, the entity being excluded from the sibling set);
`check("L3", {"L1","L2"})` is true.  The sibling set itself is derived from
the entities sharing the parent, as in `topic_subid_map`. -/
theorem uniqueness_guard_truth_table :
    createDuplicateCheckAllows ["L1", "L2"] "L1" = false ∧
    updateSubtopicGuardAllows [Subtopic.mk 1 7 "L1"] 1 "L1" "L1" = true ∧
    createDuplicateCheckAllows ["L1", "L2"] "L3" = true ∧
    topic_subid_map [Topic.mk 1 4 "L1", Topic.mk 2 4 "L2", Topic.mk 3 9 "Z"] 4 =
      ["L1", "L2"] := by decide

/- ## C10: milestone update payload (milestones_manage.py lines 304-316, 372-391) -/

inductive PayloadVal where
  | natVal (n : Nat)
  | strVal (s : String)
deriving DecidableEq, Repr

/-- The changed-fields update payload assembled on the milestone update form submit:
`class` is included only when changed; `level` is included only when changed,
and in that case `oid` is also included, fixed to `initial_oid` — which is the
selected milestone's own `oid` when the selected milestone is found in the
fetched list, else the offering selected in the filter dropdown.  (The final
HTTP body drops `None`-valued fields, as `update_milestone` does.) -/
def milestone_update_payload
    (allMilestones : List Milestone) (selectedMid : Nat) (selectedOfferingOid : Option Nat)
    (updatedClass : Nat) (updatedLevel : String) : List (String × PayloadVal) :=
  let obj := allMilestones.find? (fun m => m.mid = selectedMid)
  let initialClass : Nat := match obj with | some m => m.mclass | none => 1
  let initialOid : Option Nat := match obj with | some m => some m.oid | none => selectedOfferingOid
  let initialLevel : Option String := match obj with | some m => some m.level | none => none
  (if updatedClass ≠ initialClass then [("class", PayloadVal.natVal updatedClass)] else [])
    ++ (if some updatedLevel ≠ initialLevel then
          ("level", PayloadVal.strVal updatedLevel) ::
            (match initialOid with
              | some oid => [("oid", PayloadVal.natVal oid)]
              | none => [])
        else [])

/-- C10: when the selected milestone is found in the milestone list, the
update payload carries an `oid` field exactly when the level is being
changed, and that `oid` always equals the selected milestone's existing
`oid` — an update never moves a milestone to a different offering. -/
theorem milestone_update_preserves_offering
    (allMilestones : List Milestone) (selectedMid : Nat) (selectedOfferingOid : Option Nat)
    (updatedClass : Nat) (updatedLevel : String) (m : Milestone)
    (hfind : allMilestones.find? (fun x => x.mid = selectedMid) = some m) :
    (∀ v, ("oid", v) ∈ milestone_update_payload allMilestones selectedMid selectedOfferingOid
        updatedClass updatedLevel → v = PayloadVal.natVal m.oid) ∧
    ((∃ v, ("oid", v) ∈ milestone_update_payload allMilestones selectedMid selectedOfferingOid
        updatedClass updatedLevel) ↔ updatedLevel ≠ m.level) := by
  have hpayload : milestone_update_payload allMilestones selectedMid selectedOfferingOid
      updatedClass updatedLevel =
      (if updatedClass ≠ m.mclass then [("class", PayloadVal.natVal updatedClass)] else [])
        ++ (if updatedLevel ≠ m.level then
              [("level", PayloadVal.strVal updatedLevel), ("oid", PayloadVal.natVal m.oid)]
            else []) := by
    unfold milestone_update_payload
    rw [hfind]
    simp only [Option.some.injEq, ne_eq]
  rw [hpayload]
  by_cases hl : updatedLevel = m.level <;> by_cases hc : updatedClass = m.mclass
  · simp [hl, hc]
  · simp [hl, hc]
  · constructor
    · intro v hv
      simp [hl, hc] at hv
      exact hv
    · simp [hl, hc]
  · constructor
    · intro v hv
      simp [hl, hc] at hv
      exact hv
    · simp [hl, hc]

/-- Witness for C10: updating milestone 3 (oid 7, level "L2") to level "L3"
produces a payload whose `oid` field is present and equal to 7. -/
theorem milestone_update_preserves_offering_witness :
    [Milestone.mk 3 7 "L2" 4].find? (fun x => x.mid = 3) = some (Milestone.mk 3 7 "L2" 4) ∧
    ((∀ v, ("oid", v) ∈ milestone_update_payload [Milestone.mk 3 7 "L2" 4] 3 none 4 "L3" →
        v = PayloadVal.natVal 7) ∧
      ((∃ v, ("oid", v) ∈ milestone_update_payload [Milestone.mk 3 7 "L2" 4] 3 none 4 "L3") ↔
        "L3" ≠ "L2")) :=
  ⟨by decide,
    milestone_update_preserves_offering [Milestone.mk 3 7 "L2" 4] 3 none 4 "L3"
      (Milestone.mk 3 7 "L2" 4) (by decide)⟩

/- ## C5: assignment replacer round-trip
   (u_teachers_manage.py lines 157-189, DirectTeacher_manage.py lines 206-227) -/

/-- An entry of `available_subjects_for_assignment_options`
(u_teachers_manage.py lines 70-79): a display label carrying the subject id. -/
structure SubjectAssignOption where
  display : String
  subid : Nat
  level : String
deriving DecidableEq, Repr

/-- A subject as returned by `/subjects`. -/
structure Subject where
  subid : Nat
  subname : String
  level : String
deriving DecidableEq, Repr

/-- u_teachers_manage.py lines 168-173: the payload subject-id list is rebuilt
from scratch from the labels currently selected in the multiselect, looking
each label up with `next(...)` (first match) and skipping unmatched labels. -/
def updated_subject_ids_payload
    (opts : List SubjectAssignOption) (selected : List String) : List Nat :=
  selected.filterMap
    (fun d => (opts.find? (fun s => s.display = d)).map (fun s => s.subid))

/-- The display label built for a subject in DirectTeacher_manage.py:
`f"{s['subname']} (Level: {s['level']}, ID: {s['subid']})"`. -/
def subjectDisplay (s : Subject) : String :=
  s.subname ++ " (Level: " ++ s.level ++ ", ID: " ++ toString s.subid ++ ")"

/-- DirectTeacher_manage.py lines 212-216: selected display names are mapped
back to subject ids through the display-keyed dict over all subjects. -/
def updated_subject_ids (subjects : List Subject) (selected : List String) : List Nat :=
  selected.filterMap
    (fun d => (dictLookupLast (subjects.map (fun s => (subjectDisplay s, s))) d).map
      (fun s => s.subid))

/-- Core characterization of the label → id replacement used by both pages:
with distinct labels, label-distinct options and id-distinct options, the
rebuilt id list is duplicate-free and is exactly the image of the selected
labels. -/
theorem replacer_payload_spec
    (opts : List SubjectAssignOption) (selected : List String)
    (hsel : selected.Nodup)
    (hdisp : (opts.map (fun s => s.display)).Nodup)
    (hids : (opts.map (fun s => s.subid)).Nodup) :
    (updated_subject_ids_payload opts selected).Nodup ∧
    (∀ x, x ∈ updated_subject_ids_payload opts selected ↔
      ∃ s ∈ opts, s.display ∈ selected ∧ s.subid = x) := by
  have hopts : opts.Nodup := List.Nodup.of_map _ hdisp
  have hinj_disp : ∀ s ∈ opts, ∀ t ∈ opts, s.display = t.display → s = t :=
    (List.nodup_map_iff_inj_on hopts).mp hdisp
  have hinj_id : ∀ s ∈ opts, ∀ t ∈ opts, s.subid = t.subid → s = t :=
    (List.nodup_map_iff_inj_on hopts).mp hids
  constructor
  · apply List.Nodup.filterMap _ hsel
    intro d d' x hx hx'
    simp only [Option.mem_def, Option.map_eq_some'] at hx hx'
    obtain ⟨s, hs, hsx⟩ := hx
    obtain ⟨t, ht, htx⟩ := hx'
    have hsmem : s ∈ opts := List.mem_of_find?_eq_some hs
    have htmem : t ∈ opts := List.mem_of_find?_eq_some ht
    have hsd : s.display = d := by simpa using List.find?_some hs
    have htd : t.display = d' := by simpa using List.find?_some ht
    have hst : s = t := hinj_id s hsmem t htmem (hsx.trans htx.symm)
    rw [← hsd, ← htd, hst]
  · intro x
    unfold updated_subject_ids_payload
    rw [List.mem_filterMap]
    constructor
    · rintro ⟨d, hd, hfd⟩
      simp only [Option.map_eq_some'] at hfd
      obtain ⟨s, hs, hsx⟩ := hfd
      refine ⟨s, List.mem_of_find?_eq_some hs, ?_, hsx⟩
      have : s.display = d := by simpa using List.find?_some hs
      rw [this]; exact hd
    · rintro ⟨s, hsmem, hsd, hsx⟩
      refine ⟨s.display, hsd, ?_⟩
      have hsome : (opts.find? (fun t => t.display = s.display)).isSome := by
        rw [List.find?_isSome]
        exact ⟨s, hsmem, by simp⟩
      obtain ⟨t, ht⟩ := Option.isSome_iff_exists.mp hsome
      have htmem : t ∈ opts := List.mem_of_find?_eq_some ht
      have htd : t.display = s.display := by simpa using List.find?_some ht
      have : t = s := hinj_disp t htmem s hsmem htd
      rw [ht, this]
      simpa using hsx

/-- The DirectTeacher id rebuild is the same computation as the u_teachers
one, run over the display-keyed dict entries (last binding wins, hence the
reversal). -/
theorem updated_subject_ids_eq_payload (subjects : List Subject) (selected : List String) :
    updated_subject_ids subjects selected =
      updated_subject_ids_payload
        (subjects.reverse.map (fun s => SubjectAssignOption.mk (subjectDisplay s) s.subid s.level))
        selected := by
  unfold updated_subject_ids updated_subject_ids_payload dictLookupLast
  congr 1
  funext d
  rw [← List.map_reverse, List.find?_map, List.find?_map, Option.map_map, Option.map_map,
    Option.map_map]
  rfl

/-- C5: for every set of labels selected in the subjects multiselect (on
either teacher page), the submitted subject-id list contains exactly the ids
the display-to-id association assigns to the selected labels — no
duplicates, no residue, the list being recomputed from the current selection
alone. -/
theorem assignment_replacer_round_trip
    (opts : List SubjectAssignOption) (subjects : List Subject) (selected : List String)
    (hsel : selected.Nodup)
    (hdisp : (opts.map (fun s => s.display)).Nodup)
    (hids : (opts.map (fun s => s.subid)).Nodup)
    (hdispS : (subjects.map subjectDisplay).Nodup)
    (hidsS : (subjects.map (fun s => s.subid)).Nodup) :
    ((updated_subject_ids_payload opts selected).Nodup ∧
      (∀ x, x ∈ updated_subject_ids_payload opts selected ↔
        ∃ s ∈ opts, s.display ∈ selected ∧ s.subid = x)) ∧
    ((updated_subject_ids subjects selected).Nodup ∧
      (∀ x, x ∈ updated_subject_ids subjects selected ↔
        ∃ s ∈ subjects, subjectDisplay s ∈ selected ∧ s.subid = x)) := by
  refine ⟨replacer_payload_spec opts selected hsel hdisp hids, ?_⟩
  have hcore := replacer_payload_spec
    (subjects.reverse.map
      (fun s => SubjectAssignOption.mk (subjectDisplay s) s.subid s.level))
    selected hsel
    (by
      have h1 : (subjects.reverse.map
          (fun s => SubjectAssignOption.mk (subjectDisplay s) s.subid s.level)).map
            (fun s => s.display) = (subjects.map subjectDisplay).reverse := by
        rw [List.map_map, List.map_reverse]
        rfl
      rw [h1, List.nodup_reverse]
      exact hdispS)
    (by
      have h2 : (subjects.reverse.map
          (fun s => SubjectAssignOption.mk (subjectDisplay s) s.subid s.level)).map
            (fun s => s.subid) = (subjects.map (fun s => s.subid)).reverse := by
        rw [List.map_map, List.map_reverse]
        rfl
      rw [h2, List.nodup_reverse]
      exact hidsS)
  rw [updated_subject_ids_eq_payload]
  refine ⟨hcore.1, fun x => (hcore.2 x).trans ?_⟩
  constructor
  · rintro ⟨s, hsmem, hdisp2, hid⟩
    rw [List.mem_map] at hsmem
    obtain ⟨t, htmem, rfl⟩ := hsmem
    exact ⟨t, List.mem_reverse.mp htmem, hdisp2, hid⟩
  · rintro ⟨t, htmem, hdisp2, hid⟩
    exact ⟨SubjectAssignOption.mk (subjectDisplay t) t.subid t.level,
      List.mem_map.mpr ⟨t, List.mem_reverse.mpr htmem, rfl⟩, hdisp2, hid⟩

/-- Witness for C5: the desired set {5, 9, 12} produces the payload
[5, 9, 12] on both teacher pages — exactly the target membership, no
duplicates. -/
theorem assignment_replacer_round_trip_witness :
    updated_subject_ids_payload
        [SubjectAssignOption.mk "A" 5 "L1", SubjectAssignOption.mk "B" 9 "L1",
          SubjectAssignOption.mk "C" 12 "L2"] ["A", "B", "C"] = [5, 9, 12] ∧
    updated_subject_ids
        [Subject.mk 5 "A" "L1", Subject.mk 9 "B" "L1", Subject.mk 12 "C" "L2"]
        ["A (Level: L1, ID: 5)", "B (Level: L1, ID: 9)", "C (Level: L2, ID: 12)"] =
      [5, 9, 12] ∧
    (((updated_subject_ids_payload
          [SubjectAssignOption.mk "A" 5 "L1", SubjectAssignOption.mk "B" 9 "L1",
            SubjectAssignOption.mk "C" 12 "L2"] ["A", "B", "C"]).Nodup ∧
        (∀ x, x ∈ updated_subject_ids_payload
            [SubjectAssignOption.mk "A" 5 "L1", SubjectAssignOption.mk "B" 9 "L1",
              SubjectAssignOption.mk "C" 12 "L2"] ["A", "B", "C"] ↔
          ∃ s ∈ [SubjectAssignOption.mk "A" 5 "L1", SubjectAssignOption.mk "B" 9 "L1",
              SubjectAssignOption.mk "C" 12 "L2"],
            s.display ∈ ["A", "B", "C"] ∧ s.subid = x)) ∧
      ((updated_subject_ids
          [Subject.mk 5 "A" "L1", Subject.mk 9 "B" "L1", Subject.mk 12 "C" "L2"]
          ["A", "B", "C"]).Nodup ∧
        (∀ x, x ∈ updated_subject_ids
            [Subject.mk 5 "A" "L1", Subject.mk 9 "B" "L1", Subject.mk 12 "C" "L2"]
            ["A", "B", "C"] ↔
          ∃ s ∈ [Subject.mk 5 "A" "L1", Subject.mk 9 "B" "L1", Subject.mk 12 "C" "L2"],
            subjectDisplay s ∈ ["A", "B", "C"] ∧ s.subid = x))) :=
  ⟨by decide, by decide,
    assignment_replacer_round_trip
      [SubjectAssignOption.mk "A" 5 "L1", SubjectAssignOption.mk "B" 9 "L1",
        SubjectAssignOption.mk "C" 12 "L2"]
      [Subject.mk 5 "A" "L1", Subject.mk 9 "B" "L1", Subject.mk 12 "C" "L2"]
      ["A", "B", "C"]
      (by decide) (by decide) (by decide) (by decide) (by decide)⟩

/- ## C8, C9: the remote data gateway `direct_api_call`
   (subtopics_manage.py lines 13-58, DirectStudent_manage.py lines 13-61,
   DirectTeacher_manage.py lines 10-45 — identical logic) -/

/-- Outcome of `response.json()`: a successfully decoded JSON document
(abstracted as a token) or a `json.JSONDecodeError` with the raw
response text. -/
inductive BodyParse where
  | parsed (v : String)
  | unparseable (raw : String)
deriving DecidableEq, Repr

structure HttpResponse where
  status : Nat
  body : BodyParse
deriving DecidableEq, Repr

/-- What the transport layer did for one request: delivered a response, or
raised `requests.exceptions.ConnectionError` / `Timeout` / another
`RequestException`. -/
inductive Transport where
  | ok (resp : HttpResponse)
  | connectionFailure
  | timeout
  | requestError (e : String)
deriving DecidableEq, Repr

/-- The body component of the `(status, body)` pair `direct_api_call`
returns: the empty dict, a `{"message": ...}` dict, or decoded JSON data. -/
inductive ApiBody where
  | emptyObj
  | message (s : String)
  | jsonData (v : String)
deriving DecidableEq, Repr

def supportedMethod (method : String) : Bool :=
  method == "GET" || method == "POST" || method == "PUT" || method == "DELETE"

/-- The gateway `direct_api_call`: dispatch on the method (an unsupported method returns
400 before any transport activity); on a delivered response, a 204 returns
`(204, {})` without any parse attempt, otherwise the body is JSON-decoded,
a decode failure producing the invalid-JSON message with the raw text; each
transport exception is caught and mapped to a synthetic status.  The
function is total — every failure path is a returned pair, nothing
propagates. -/
def direct_api_call (method : String) (transport : Transport) : Nat × ApiBody :=
  if supportedMethod method then
    match transport with
    | Transport.ok resp =>
      if resp.status = 204 then (resp.status, ApiBody.emptyObj)
      else
        match resp.body with
        | BodyParse.parsed v => (resp.status, ApiBody.jsonData v)
        | BodyParse.unparseable raw =>
            (resp.status, ApiBody.message ("Invalid JSON response from API: " ++ raw))
    | Transport.connectionFailure => (503, ApiBody.message "API service unavailable")
    | Transport.timeout => (408, ApiBody.message "API request timed out")
    | Transport.requestError e => (500, ApiBody.message ("API request error: " ++ e))
  else (400, ApiBody.message "Unsupported HTTP method")

/-- C8: for every supported method, a connection failure yields
`(503, {message: "API service unavailable"})`, a timeout yields
`(408, {message: "API request timed out"})`, any other transport error
yields 500 with a descriptive message, and a 204 response yields
`(204, {})` regardless of its body — no parse is attempted. -/
theorem gateway_status_mapping (method : String) (hm : supportedMethod method = true) :
    direct_api_call method Transport.connectionFailure =
      (503, ApiBody.message "API service unavailable") ∧
    direct_api_call method Transport.timeout =
      (408, ApiBody.message "API request timed out") ∧
    (∀ e, direct_api_call method (Transport.requestError e) =
      (500, ApiBody.message ("API request error: " ++ e))) ∧
    (∀ body, direct_api_call method (Transport.ok (HttpResponse.mk 204 body)) =
      (204, ApiBody.emptyObj)) := by
  refine ⟨?_, ?_, fun e => ?_, fun body => ?_⟩ <;> simp [direct_api_call, hm]

/-- Witness for C8 at the concrete method "GET". -/
theorem gateway_status_mapping_witness :
    supportedMethod "GET" = true ∧
    (direct_api_call "GET" Transport.connectionFailure =
        (503, ApiBody.message "API service unavailable") ∧
      direct_api_call "GET" Transport.timeout =
        (408, ApiBody.message "API request timed out") ∧
      (∀ e, direct_api_call "GET" (Transport.requestError e) =
        (500, ApiBody.message ("API request error: " ++ e))) ∧
      (∀ body, direct_api_call "GET" (Transport.ok (HttpResponse.mk 204 body)) =
        (204, ApiBody.emptyObj))) :=
  ⟨by decide, gateway_status_mapping "GET" (by decide)⟩

/-- C9 counterexample: on a 200 response whose body is not JSON, the gateway
returns the message `"Invalid JSON response from API: <raw>"`, not the
`"Invalid JSON response: <raw>"` the claim states. -/
theorem gateway_invalid_json_counterexample :
    direct_api_call "GET" (Transport.ok (HttpResponse.mk 200 (BodyParse.unparseable "oops"))) =
      (200, ApiBody.message "Invalid JSON response from API: oops") ∧
    direct_api_call "GET" (Transport.ok (HttpResponse.mk 200 (BodyParse.unparseable "oops"))) ≠
      (200, ApiBody.message "Invalid JSON response: oops") := by decide

/-- C9 (amended): `direct_api_call` is a total function into `(status, body)`
pairs — every failure path is represented in the return value; for a
supported method and a non-204 response with a non-JSON-parseable body it
returns `(originalStatusCode, {message: "Invalid JSON response from API:
<raw text>"})`; an unsupported method returns `(400, {message: "Unsupported
HTTP method"})` without touching the transport. -/
theorem gateway_totality_invalid_json
    (method bad : String) (t : Transport) (status : Nat) (raw : String)
    (hm : supportedMethod method = true) (h204 : status ≠ 204)
    (hbad : supportedMethod bad = false) :
    direct_api_call method (Transport.ok (HttpResponse.mk status (BodyParse.unparseable raw))) =
      (status, ApiBody.message ("Invalid JSON response from API: " ++ raw)) ∧
    direct_api_call bad t = (400, ApiBody.message "Unsupported HTTP method") := by
  constructor
  · simp [direct_api_call, hm, h204]
  · simp [direct_api_call, hbad]

/-- Witness for the amended C9 at method "GET", unsupported method "PATCH",
status 500 and raw body "oops". -/
theorem gateway_totality_invalid_json_witness :
    (supportedMethod "GET" = true ∧ (500 : Nat) ≠ 204 ∧ supportedMethod "PATCH" = false) ∧
    (direct_api_call "GET"
        (Transport.ok (HttpResponse.mk 500 (BodyParse.unparseable "oops"))) =
      (500, ApiBody.message "Invalid JSON response from API: oops") ∧
    direct_api_call "PATCH" Transport.timeout =
      (400, ApiBody.message "Unsupported HTTP method")) :=
  ⟨⟨by decide, by decide, by decide⟩,
    gateway_totality_invalid_json "GET" "PATCH" Transport.timeout 500 "oops"
      (by decide) (by decide) (by decide)⟩

/- ## C7: guard-before-mutation
   (offerings_manage.py lines 227-245, topics_manage.py lines 128-149 and
   279-333, subtopics_manage.py lines 154-173 and 272-317)

Modelled as the submit handlers: each returns `some payload` when the
Gateway mutation is issued for that interaction and `none` when the
interaction ends without a Gateway call (validation warning, duplicate
conflict, or no changes). -/

/-- The sibling `gtype` values under a gurukul, excluding the offering being
updated — the per-parent uniqueness context for `gtype`. -/
def sibling_gtypes (allOfferings : List Offering) (gid oid : Nat) : List String :=
  (allOfferings.filter (fun o => o.gid = gid ∧ o.oid ≠ oid)).map (fun o => o.gtype)

/-- The offering update submit (offerings_manage.py lines 237-245): with an
offering selected, a gurukul chosen and a non-empty gtype, the PUT is issued
directly — there is no client-side duplicate check on this path (the source
comments "backend handles uniqueness"). -/
def update_offering_submit
    (selectedOfferingId updatedGurukulId : Option Nat) (updatedGtype : String) :
    Option (Nat × Nat × String) :=
  match selectedOfferingId, updatedGurukulId with
  | some oid, some gid =>
    if updatedGtype ≠ "" then some (oid, gid, updatedGtype) else none
  | _, _ => none

structure TopicCreatePayload where
  tname : String
  subid : Nat
  image_url : Option String
deriving DecidableEq, Repr

/-- The topic create submit (topics_manage.py lines 134-147): requires a name
and a parent subject, then rejects a name already present among the selected
subject's topics before calling the Gateway. -/
def create_topic_submit
    (allTopics : List Topic) (selectedSubjectId : Option Nat)
    (newTname newImageUrl : String) : Option TopicCreatePayload :=
  match selectedSubjectId with
  | some sid =>
    if newTname ≠ "" then
      if newTname ∈ topic_subid_map allTopics sid then none
      else some (TopicCreatePayload.mk newTname sid
        (if newImageUrl ≠ "" then some newImageUrl else none))
    else none
  | none => none

/-- The sibling topic names in the target subject, the topic being updated
excluded by id (topics_manage.py lines 286-289). -/
def existing_topics_in_target_subject
    (allTopics : List Topic) (targetSubid selectedTid : Nat) : List String :=
  (allTopics.filter (fun t => t.subid = targetSubid ∧ t.tid ≠ selectedTid)).map
    (fun t => t.tname)

structure TopicUpdatePayload where
  tname : Option String
  subid : Option Nat
  image_url : Option String
deriving DecidableEq, Repr

/-- The topic update submit (topics_manage.py lines 279-333): when the name
or the parent subject changed and the new name collides with a sibling in
the target subject, the interaction warns and the Gateway is not called;
otherwise a changed-fields payload is assembled (`subid` backfilled), and a
no-change submit also skips the Gateway. -/
def update_topic_submit
    (allTopics : List Topic) (selectedTid : Option Nat)
    (initialTname : String) (initialSubid : Nat) (initialImageUrl : String)
    (updatedTname : String) (newSubid : Nat) (updatedImageUrl : String) :
    Option TopicUpdatePayload :=
  match selectedTid with
  | some tid =>
    if updatedTname ≠ "" then
      if (updatedTname ≠ initialTname ∨ newSubid ≠ initialSubid) ∧
          updatedTname ∈ existing_topics_in_target_subject allTopics newSubid tid then
        none
      else
        let tnameField := if updatedTname ≠ initialTname then some updatedTname else none
        let subidField := if newSubid ≠ initialSubid then some newSubid else none
        let imageField := if updatedImageUrl ≠ initialImageUrl then some updatedImageUrl else none
        if tnameField = none ∧ subidField = none ∧ imageField = none then none
        else some (TopicUpdatePayload.mk tnameField
          (if subidField = none then some initialSubid else subidField) imageField)
    else none
  | none => none

structure SubtopicUpdatePayload where
  subtopicName : Option String
  imageUrl : Option String
deriving DecidableEq, Repr

/-- The subtopic update submit (subtopics_manage.py lines 282-317): a changed
name colliding with a sibling (self excluded by id) warns without calling
the Gateway; otherwise a changed-fields payload is sent, a no-change submit
skipping the call. -/
def update_subtopic_submit
    (siblings : List Subtopic) (selectedSubtid : Option Nat)
    (initialName initialImageUrl updatedName updatedImageUrl : String) :
    Option SubtopicUpdatePayload :=
  match selectedSubtid with
  | some subtid =>
    if updatedName ≠ "" then
      if updatedName ≠ initialName ∧
          updatedName ∈ (siblings.filter (fun s => s.subtid ≠ subtid)).map
            (fun s => s.subtopic_name) then
        none
      else
        let nameField := if updatedName ≠ initialName then some updatedName else none
        let imageField := if updatedImageUrl ≠ initialImageUrl then some updatedImageUrl else none
        if nameField = none ∧ imageField = none then none
        else some (SubtopicUpdatePayload.mk nameField imageField)
    else none
  | none => none

/-- The subtopic create submit (subtopics_manage.py lines 160-173): with a
name and a parent topic the POST is issued directly — no client-side
duplicate check on this path either (a backend 409 is handled afterwards). -/
def create_subtopic_submit
    (selectedTopicId : Option Nat) (name imageUrl : String) :
    Option (Nat × String × String) :=
  match selectedTopicId with
  | some tid => if name ≠ "" then some (tid, name, imageUrl) else none
  | none => none

/-- C7 counterexample: two cited per-parent-unique mutations reach the
Gateway despite a client-detectable duplicate.  Updating offering 2 of
gurukul 1 to gtype "G2" issues the PUT although sibling offering 1 already
has gtype "G2" under the same gurukul; creating subtopic "A" under topic 1
issues the POST although a sibling subtopic of topic 1 is already named
"A". -/
theorem guard_before_mutation_counterexample :
    (update_offering_submit (some 2) (some 1) "G2" = some (2, 1, "G2") ∧
      "G2" ∈ sibling_gtypes [Offering.mk 1 1 "G2", Offering.mk 2 1 "G1"] 1 2) ∧
    (create_subtopic_submit (some 1) "A" "" = some (1, "A", "") ∧
      "A" ∈ [Subtopic.mk 7 1 "A"].map (fun s => s.subtopic_name)) := by decide

/-- C7 (amended): the guard-before-mutation discipline holds on the
name-per-parent paths — topic create, topic rename, and subtopic rename —
where a duplicate value blocks the Gateway call; the offering update and
subtopic create paths instead issue the Gateway call without a client-side
duplicate check, deferring uniqueness to the backend. -/
theorem guard_before_mutation_amended
    (allTopics : List Topic) (sid tid : Nat) (newTname newImageUrl : String)
    (initialTname : String) (initialSubid : Nat) (initialImageUrl : String)
    (updatedTname : String) (newSubid : Nat) (updatedImageUrl : String)
    (siblings : List Subtopic) (subtid : Nat)
    (initialName initialImg updName updImg : String)
    (hdupCreate : newTname ∈ topic_subid_map allTopics sid)
    (hdupRename : (updatedTname ≠ initialTname ∨ newSubid ≠ initialSubid) ∧
        updatedTname ∈ existing_topics_in_target_subject allTopics newSubid tid)
    (hdupSub : updName ≠ initialName ∧
        updName ∈ (siblings.filter (fun s => s.subtid ≠ subtid)).map
          (fun s => s.subtopic_name)) :
    create_topic_submit allTopics (some sid) newTname newImageUrl = none ∧
    update_topic_submit allTopics (some tid) initialTname initialSubid initialImageUrl
      updatedTname newSubid updatedImageUrl = none ∧
    update_subtopic_submit siblings (some subtid) initialName initialImg
      updName updImg = none := by
  refine ⟨?_, ?_, ?_⟩
  · unfold create_topic_submit
    by_cases h : newTname = ""
    · simp [h]
    · simp [h, hdupCreate]
  · unfold update_topic_submit
    obtain ⟨h1, h2⟩ := hdupRename
    by_cases h : updatedTname = ""
    · simp [h]
    · simp [h, h1, h2]
  · unfold update_subtopic_submit
    obtain ⟨h1, h2⟩ := hdupSub
    by_cases h : updName = ""
    · simp [h]
    · simp [h, h1]
      obtain ⟨a, ⟨ha, hs⟩, hn⟩ := by simpa using h2
      exact ⟨a, ha, hs, hn⟩

/-- Witness for the amended C7: a duplicate topic name blocks the create, a
duplicate rename target blocks the topic update, and a duplicate sibling
name blocks the subtopic update — each without a Gateway call. -/
theorem guard_before_mutation_amended_witness :
    ("T" ∈ topic_subid_map [Topic.mk 1 4 "T", Topic.mk 2 4 "U"] 4 ∧
      (("T" : String) ≠ "U" ∨ (4 : Nat) ≠ 4) ∧
      "T" ∈ existing_topics_in_target_subject [Topic.mk 1 4 "T", Topic.mk 2 4 "U"] 4 2 ∧
      ("A" : String) ≠ "B" ∧
      "A" ∈ ([Subtopic.mk 1 9 "A", Subtopic.mk 2 9 "B"].filter
          (fun s => s.subtid ≠ 2)).map (fun s => s.subtopic_name)) ∧
    (create_topic_submit [Topic.mk 1 4 "T", Topic.mk 2 4 "U"] (some 4) "T" "" = none ∧
      update_topic_submit [Topic.mk 1 4 "T", Topic.mk 2 4 "U"] (some 2) "U" 4 "" "T" 4 "" =
        none ∧
      update_subtopic_submit [Subtopic.mk 1 9 "A", Subtopic.mk 2 9 "B"] (some 2) "B" ""
        "A" "" = none) :=
  ⟨⟨by decide, by decide, by decide, by decide, by decide⟩,
    guard_before_mutation_amended [Topic.mk 1 4 "T", Topic.mk 2 4 "U"] 4 2 "T" "" "U" 4 ""
      "T" 4 "" [Subtopic.mk 1 9 "A", Subtopic.mk 2 9 "B"] 2 "B" "" "A" ""
      (by decide) ⟨by decide, by decide⟩ ⟨by decide, by decide⟩⟩

/- ## C4: coupled-null rule for student assignments
   (u_students_manage.py lines 249-302, DirectStudent_manage.py lines 341-427) -/

def startsWithChars : List Char → List Char → Bool
  | [], _ => true
  | _ :: _, [] => false
  | m :: ms, c :: cs => m == c && startsWithChars ms cs

def digitsToNat (cs : List Char) : Nat :=
  cs.foldl (fun n c => n * 10 + (c.toNat - 48)) 0

/-- The segment of `s.split(marker)[1]`: everything after the first
occurrence of the marker; `none` when the marker does not occur. -/
def charsAfterFirstMarker (marker : List Char) : List Char → Option (List Char)
  | [] => none
  | c :: cs =>
    if startsWithChars marker (c :: cs) then some ((c :: cs).drop marker.length)
    else charsAfterFirstMarker marker cs

/-- Cut the split segment at the next occurrence of the marker (or the end),
as Python `split` does. -/
def segmentBeforeMarker (marker : List Char) : List Char → List Char
  | [] => []
  | c :: cs =>
    if startsWithChars marker (c :: cs) then []
    else c :: segmentBeforeMarker marker cs

/-- Python `int(...)` on a digit string; `none` models the `ValueError` on
anything else. -/
def pyIntOfChars (cs : List Char) : Option Nat :=
  if cs ≠ [] ∧ cs.all Char.isDigit then some (digitsToNat cs) else none

/-- The id extraction `int(disp.split("(ID: ")[1][:-1])` used for gurukul
display labels. -/
def parse_id_from_display (disp : String) : Option Nat :=
  match charsAfterFirstMarker "(ID: ".data disp.data with
  | some rest => pyIntOfChars (segmentBeforeMarker "(ID: ".data rest).dropLast
  | none => none

/-- The regex extraction of `int(re.search(r"MID: space* digits", s).group(1))`
applied to milestone display labels on the combined page. -/
def searchMID : List Char → Option Nat
  | [] => none
  | c :: cs =>
    if startsWithChars "MID:".data (c :: cs) then
      let ds := (((c :: cs).drop 4).dropWhile (fun ch => ch.isWhitespace)).takeWhile
        Char.isDigit
      if ds ≠ [] then some (digitsToNat ds) else searchMID cs
    else searchMID cs

/-- The regex extraction of `int(re.search(r"ID: digits", s).group(1))`
applied to milestone display labels on the direct page. -/
def searchIdNum : List Char → Option Nat
  | [] => none
  | c :: cs =>
    if startsWithChars "ID: ".data (c :: cs) then
      let ds := ((c :: cs).drop 4).takeWhile Char.isDigit
      if ds ≠ [] then some (digitsToNat ds) else searchIdNum cs
    else searchIdNum cs

def NONE_GURUKUL_SENTINEL : String := "None (Unassign Gurukul)"

def NONE_OFFERING_SENTINEL : String := "None (Unassign Offering)"

def NONE_MILESTONE_SENTINEL : String := "None (Unassign Milestone)"

/-- What one click of "Assign Gurukul & Milestone" does: issue the PUT with
the two parsed ids (`call`), refuse with a validation warning (`warning`),
abort via `st.stop` on a malformed label (`stopError`), or crash on an
uncaught `ValueError` (`crash`). -/
inductive AssignOutcome where
  | warning
  | stopError
  | crash
  | call (gurukul_id milestone_id : Option Nat)
deriving DecidableEq, Repr

/-- The button-click logic of u_students_manage.py lines 249-302.
`offeringDisplay` and `milestoneDisplay` are the local variables set
to `None` at lines 203-204 and only assigned inside the branch where the
gurukul selection is not the sentinel, so a sentinel gurukul selection
always arrives here with `offeringDisplay = none`. -/
def assign_button_outcome
    (gurukulDisplay : String) (offeringDisplay milestoneDisplay : Option String) :
    AssignOutcome :=
  let gStep : Except AssignOutcome (Option Nat) :=
    if gurukulDisplay ≠ NONE_GURUKUL_SENTINEL then
      if gurukulDisplay ≠ "" ∧ (charsAfterFirstMarker "(ID: ".data gurukulDisplay.data).isSome
      then
        match parse_id_from_display gurukulDisplay with
        | some gid => Except.ok (some gid)
        | none => Except.error AssignOutcome.crash
      else Except.error AssignOutcome.stopError
    else Except.ok none
  match gStep with
  | Except.error e => e
  | Except.ok finalGurukulId =>
    let mStep : Except AssignOutcome (Option Nat) :=
      match offeringDisplay with
      | some od =>
        if od ≠ NONE_OFFERING_SENTINEL then
          match milestoneDisplay with
          | some md =>
            if md ≠ NONE_MILESTONE_SENTINEL then
              match searchMID md.data with
              | some mid => Except.ok (some mid)
              | none => Except.error AssignOutcome.stopError
            else Except.ok none
          | none => Except.ok none
        else Except.ok none
      | none => Except.ok none
    match mStep with
    | Except.error e => e
    | Except.ok finalMilestoneId =>
      if finalGurukulId = none ∧ finalMilestoneId = none then AssignOutcome.warning
      else AssignOutcome.call finalGurukulId finalMilestoneId

/-- DirectStudent_manage.py lines 367-371: the gurukul id sent by the update
form — `None` for the sentinel, else the first gurukul with the selected
name. -/
def final_gurukul_id_update_form (gurukuls : List Gurukul) (selectedName : String) :
    Option Nat :=
  if selectedName ≠ NONE_GURUKUL_SENTINEL then
    (gurukuls.find? (fun g => g.gname = selectedName)).map (fun g => g.gid)
  else none

/-- DirectStudent_manage.py lines 374-376: milestones are fetched only when
the chosen gurukul id is truthy (Python truthiness: not `None` and not 0). -/
def milestones_for_update_gurukul
    (fetchByGurukul : Nat → List Milestone) (gid : Option Nat) : List Milestone :=
  match gid with
  | some g => if g ≠ 0 then fetchByGurukul g else []
  | none => []

/-- DirectStudent_manage.py lines 386-389: the milestone selectbox options —
the sentinel followed by the labels of the fetched milestones. -/
def milestone_options_for_update_select (ms : List Milestone) : List String :=
  NONE_MILESTONE_SENTINEL :: ms.map milestoneDisplay

/-- DirectStudent_manage.py lines 404-408: the milestone id sent by the
update form, extracted from the selected label unless it is the sentinel. -/
def final_milestone_id_update_form (selectedName : String) : Option Nat :=
  if selectedName ≠ NONE_MILESTONE_SENTINEL then searchIdNum selectedName.data else none

structure StudentUpdatePayload where
  sname : String
  email : String
  gurukulId : Option Nat
  milestoneId : Option Nat
deriving DecidableEq, Repr

/-- DirectStudent_manage.py lines 416-427: the update submit — a missing
name or email warns without a Gateway call, otherwise the PUT payload
carries both assignment fields explicitly (null meaning unassign). -/
def update_student_submit
    (updatedName updatedEmail : String) (g m : Option Nat) :
    Option StudentUpdatePayload :=
  if updatedName = "" ∨ updatedEmail = "" then none
  else some (StudentUpdatePayload.mk updatedName updatedEmail g m)

/-- C4 counterexample: on the combined page (u_students_manage.py, a cited
source of the claim), submitting with the gurukul sentinel — even with a
stale milestone label still cached — produces the all-null validation
warning and no Gateway call at all, not a `{gurukul_id: null, milestone_id:
null}` payload as the claim states. -/
theorem coupled_null_counterexample :
    assign_button_outcome NONE_GURUKUL_SENTINEL none
        (some "C5 (Level: L5, MID: 42)") = AssignOutcome.warning ∧
    AssignOutcome.warning ≠ AssignOutcome.call none none := by decide

/-- C4 (amended): whenever the gurukul selection is the none sentinel at
submit time, no milestone id is ever submitted: the combined page rejects
the interaction with a warning and never calls the Gateway, while the
direct update page (whose milestone options collapse to the sentinel, since
no milestones are fetched for a null gurukul) submits exactly
`{gurukulId: null, milestoneId: null}`. -/
theorem coupled_null_amended
    (milestoneDisplayCache : Option String) (gurukuls : List Gurukul)
    (fetchByGurukul : Nat → List Milestone)
    (selectedMilestoneName updatedName updatedEmail : String)
    (hopt : selectedMilestoneName ∈ milestone_options_for_update_select
      (milestones_for_update_gurukul fetchByGurukul
        (final_gurukul_id_update_form gurukuls NONE_GURUKUL_SENTINEL))) :
    assign_button_outcome NONE_GURUKUL_SENTINEL none milestoneDisplayCache =
      AssignOutcome.warning ∧
    final_gurukul_id_update_form gurukuls NONE_GURUKUL_SENTINEL = none ∧
    final_milestone_id_update_form selectedMilestoneName = none ∧
    (∀ p, update_student_submit updatedName updatedEmail
        (final_gurukul_id_update_form gurukuls NONE_GURUKUL_SENTINEL)
        (final_milestone_id_update_form selectedMilestoneName) = some p →
      p.gurukulId = none ∧ p.milestoneId = none) ∧
    (updatedName ≠ "" → updatedEmail ≠ "" →
      update_student_submit updatedName updatedEmail
          (final_gurukul_id_update_form gurukuls NONE_GURUKUL_SENTINEL)
          (final_milestone_id_update_form selectedMilestoneName) =
        some (StudentUpdatePayload.mk updatedName updatedEmail none none)) := by
  have hg : final_gurukul_id_update_form gurukuls NONE_GURUKUL_SENTINEL = none := by
    unfold final_gurukul_id_update_form
    simp
  have hsel : selectedMilestoneName = NONE_MILESTONE_SENTINEL := by
    rw [hg] at hopt
    simpa [milestone_options_for_update_select, milestones_for_update_gurukul] using hopt
  have hm : final_milestone_id_update_form selectedMilestoneName = none := by
    rw [hsel]
    unfold final_milestone_id_update_form
    simp
  refine ⟨rfl, hg, hm, ?_, ?_⟩
  · intro p hp
    rw [hg, hm] at hp
    unfold update_student_submit at hp
    by_cases hne : updatedName = "" ∨ updatedEmail = ""
    · rw [if_pos hne] at hp
      exact absurd hp (by simp)
    · rw [if_neg hne] at hp
      obtain rfl := Option.some.inj hp
      exact ⟨rfl, rfl⟩
  · intro hn he
    rw [hg, hm]
    unfold update_student_submit
    rw [if_neg (by simp [hn, he])]

/-- Witness for the amended C4: with one gurukul, a backend returning one
milestone for it, and a stale cached milestone label, the sentinel gurukul
submit warns on the combined page and the direct page submits both fields
null. -/
theorem coupled_null_amended_witness :
    "None (Unassign Milestone)" ∈ milestone_options_for_update_select
      (milestones_for_update_gurukul (fun _ => [Milestone.mk 42 1 "L1" 2])
        (final_gurukul_id_update_form [Gurukul.mk 1 "G"] NONE_GURUKUL_SENTINEL)) ∧
    (assign_button_outcome NONE_GURUKUL_SENTINEL none
        (some "C5 (Level: L5, MID: 42)") = AssignOutcome.warning ∧
      final_gurukul_id_update_form [Gurukul.mk 1 "G"] NONE_GURUKUL_SENTINEL = none ∧
      final_milestone_id_update_form "None (Unassign Milestone)" = none ∧
      (∀ p, update_student_submit "n" "e"
          (final_gurukul_id_update_form [Gurukul.mk 1 "G"] NONE_GURUKUL_SENTINEL)
          (final_milestone_id_update_form "None (Unassign Milestone)") = some p →
        p.gurukulId = none ∧ p.milestoneId = none) ∧
      (("n" : String) ≠ "" → ("e" : String) ≠ "" →
        update_student_submit "n" "e"
            (final_gurukul_id_update_form [Gurukul.mk 1 "G"] NONE_GURUKUL_SENTINEL)
            (final_milestone_id_update_form "None (Unassign Milestone)") =
          some (StudentUpdatePayload.mk "n" "e" none none))) :=
  ⟨by decide,
    coupled_null_amended (some "C5 (Level: L5, MID: 42)") [Gurukul.mk 1 "G"]
      (fun _ => [Milestone.mk 42 1 "L1" 2]) "None (Unassign Milestone)" "n" "e"
      (by decide)⟩
